import Mathlib

/-!
Shallow embedding of the remote training dashboard (src/app.py and
src/extract_tensorboard.py) and proofs about the frozen claims.

The Python program is a Flask app; its handlers and collector helpers are
embedded as pure state-transition functions.  Effects of the outside world
(the result of spawning `ssh`/`rsync`, the wall-clock timestamp) are inputs
to each function; Python exceptions are modelled with `Except`/`Option`
(a function without a `try` block propagates the error, a `try ... except`
is a `match` that converts the error into the dictionary the source builds).
Python `float` values are modelled as `Rat` (the numeric payloads are only
stored and compared, never rounded, so exact rationals are a faithful carrier
for the decimal literals the program parses).
-/

/-- Outcome of one `subprocess.run` call: either the process completed
(with captured stdout, stderr and exit status), or spawning it raised an
exception (`FileNotFoundError`, `OSError`, ...) carrying message `msg`. -/
inductive ExecOutcome where
  | completed (stdout stderr : String) (returncode : Int)
  | spawnFailure (msg : String)
deriving Repr, DecidableEq

/-- Startup configuration loaded from `.env` (src/app.py lines 49-61).
The program exits at startup when any variable is missing, so the embedding
assumes the record is fully populated. -/
structure Config where
  SSH_HOST : String
  SSH_PORT : String
  SSH_KEY_PATH : String
  SSH_USERNAME : String
  TENSORBOARD_LOGS_PATH : String
  IMAGE_SAMPLES_PATH : String
  REMOTE_VENV_PATH : String
  MAIN_THREAD_OUTPUT : String
deriving Repr, DecidableEq

/-- Constant remote path of the helper script (src/app.py line 61). -/
def REMOTE_SCRIPT_PATH : String := "/home/user/remoteutil/extract_tensorboard.py"

/-- The value of `os.path.dirname(REMOTE_SCRIPT_PATH)` (src/app.py lines 111, 391). -/
def REMOTE_SCRIPT_DIR : String := "/home/user/remoteutil"

/-- Embedding of `run_ssh_command` (src/app.py lines 70-82).  The body is a
bare `subprocess.run` with no `try` block, so a spawn failure propagates to
the caller as an exception; a completed process is returned as the triple
`(stdout, stderr, returncode)` exactly as the source does. -/
def run_ssh_command (outcome : ExecOutcome) : Except String (String × String × Int) :=
  match outcome with
  | .completed stdout stderr returncode => .ok (stdout, stderr, returncode)
  | .spawnFailure msg => .error msg

/-- Embedding of `run_rsync` (src/app.py lines 84-105): builds the rsync
command string for the requested direction and runs it; like
`run_ssh_command` it has no `try` block, so a spawn failure propagates.
Returns `(command_str, stdout, stderr, returncode)`. -/
def run_rsync (cfg : Config) (source destination : String) (remote_to_local : Bool)
    (outcome : ExecOutcome) : Except String (String × String × String × Int) :=
  let sshOpt := "ssh -i " ++ cfg.SSH_KEY_PATH ++ " -p " ++ cfg.SSH_PORT ++
    " -o StrictHostKeyChecking=no"
  let command_str :=
    if remote_to_local then
      "rsync -av -e " ++ sshOpt ++ " " ++
        cfg.SSH_USERNAME ++ "@" ++ cfg.SSH_HOST ++ ":" ++ source ++ " " ++ destination
    else
      "rsync -av -e " ++ sshOpt ++ " " ++
        source ++ " " ++ cfg.SSH_USERNAME ++ "@" ++ cfg.SSH_HOST ++ ":" ++ destination
  match outcome with
  | .completed stdout stderr returncode => .ok (command_str, stdout, stderr, returncode)
  | .spawnFailure msg => .error msg

/-! ### Python `float()` on a stripped token, as used by `fetch_nvidia_smi` -/

/-- Numeric value of a list of decimal digit characters. -/
def digitsToNat (ds : List Char) : Nat :=
  ds.foldl (fun n c => 10 * n + (c.toNat - 48)) 0

/-- Builds the rational `sgn * (digitsToNat (ip ++ fp)) / 10 ^ fp.length * 10 ^ e`. -/
def ratOfParts (sgn : Int) (ip fp : List Char) (e : Int) : Rat :=
  let mantissa : Rat := (sgn * (digitsToNat (ip ++ fp) : Int) : Int)
  let base : Rat := mantissa / ((10 : Rat) ^ fp.length)
  if 0 ≤ e then base * (10 : Rat) ^ e.toNat else base / (10 : Rat) ^ (-e).toNat

/-- Exponent part of a float literal: the characters after `e`/`E` must be an
optional sign followed by a non-empty digit string consuming the whole rest. -/
def parseExponent (cs : List Char) : Option Int :=
  let (esgn, cs) :=
    match cs with
    | '+' :: rest => ((1 : Int), rest)
    | '-' :: rest => ((-1 : Int), rest)
    | _ => ((1 : Int), cs)
  let ds := cs.takeWhile Char.isDigit
  if ds.isEmpty ∨ ds.length ≠ cs.length then none
  else some (esgn * (digitsToNat ds : Int))

/-- Model of Python `float(s)` on an already-stripped string, for the finite
decimal literals the program can meet (optional sign, digits, optional
fractional part, optional exponent).  Returns `none` where `float` raises
`ValueError`.  (`inf`/`nan`/underscore forms are not representable as `Rat`
and are treated as parse failures; the GPU query yields plain decimals.) -/
def pyFloat (s : String) : Option Rat :=
  let cs := s.toList
  let (sgn, cs) :=
    match cs with
    | '+' :: rest => ((1 : Int), rest)
    | '-' :: rest => ((-1 : Int), rest)
    | _ => ((1 : Int), cs)
  let ip := cs.takeWhile Char.isDigit
  let cs := cs.drop ip.length
  let (fp, cs) :=
    match cs with
    | '.' :: rest => (rest.takeWhile Char.isDigit, rest.drop (rest.takeWhile Char.isDigit).length)
    | _ => ([], cs)
  if ip.isEmpty ∧ fp.isEmpty then none
  else
    match cs with
    | [] => some (ratOfParts sgn ip fp 0)
    | 'e' :: rest => (parseExponent rest).map (ratOfParts sgn ip fp)
    | 'E' :: rest => (parseExponent rest).map (ratOfParts sgn ip fp)
    | _ => none

/-- Python's default whitespace for `str.strip()`. -/
def isPySpace (c : Char) : Bool :=
  c = ' ' ∨ c = '\t' ∨ c = '\n' ∨ c = '\r' ∨ c = '\x0b' ∨ c = '\x0c'

/-- Model of Python `s.strip()`: drop whitespace from both ends. -/
def pyStrip (s : String) : String :=
  String.mk (((s.toList.dropWhile isPySpace).reverse.dropWhile isPySpace).reverse)

/-- Split on a separator character, Python `s.split(sep)` style: splitting
the empty string yields one empty field. -/
def splitOnChar (sep : Char) : List Char → List (List Char)
  | [] => [[]]
  | c :: rest =>
    match splitOnChar sep rest with
    | [] => [[c]]
    | h :: t => if c = sep then [] :: h :: t else (c :: h) :: t

/-- Model of Python `s.split(',')`. -/
def pySplitComma (s : String) : List String :=
  (splitOnChar ',' s.toList).map String.mk

/-- Python `values[i]` followed by `float(values[i].strip())`
(src/app.py lines 244-247): out-of-range indexing raises `IndexError`,
an unparsable token raises `ValueError`; both are modelled as `Except.error`
carrying the exception text (for `ValueError`, the CPython message with the
offending token unquoted). -/
def pyFloatAt (values : List String) (i : Nat) : Except String Rat :=
  match values[i]? with
  | none => .error "list index out of range"
  | some v =>
    match pyFloat (pyStrip v) with
    | none => .error ("could not convert string to float: " ++ pyStrip v)
    | some q => .ok q

/-- Embedding of the parse block of `fetch_nvidia_smi` (src/app.py lines
243-247): split the stripped output on commas and convert fields 0-3 in
order; the first failing conversion is the exception the `except` catches. -/
def parseGpuLine (output : String) : Except String (Rat × Rat × Rat × Rat) := do
  let values := pySplitComma output
  let temp ← pyFloatAt values 0
  let power ← pyFloatAt values 1
  let mem_used ← pyFloatAt values 2
  let mem_total ← pyFloatAt values 3
  return (temp, power, mem_used, mem_total)

/-! ### Shared state -/

/-- The five parallel sequences of `nvidia_smi_data` (src/app.py lines 36-42). -/
structure NvidiaSmiData where
  timestamps : List String
  temperature : List Rat
  power : List Rat
  memory_used : List Rat
  memory_total : List Rat
deriving Repr, DecidableEq

/-- The empty GPU window the module initialises (src/app.py lines 36-42). -/
def emptyNvidiaSmiData : NvidiaSmiData := ⟨[], [], [], [], []⟩

/-- Python `l[-n:]`: the suffix of the most recent `n` elements (all of `l`
when it is shorter). -/
def takeLast (n : Nat) (l : List α) : List α := l.drop (l.length - n)

/-- The trim step of `fetch_nvidia_smi` (src/app.py lines 256-259): when the
window has grown past 100 entries, every key keeps only its last 100. -/
def trimWindow (d : NvidiaSmiData) : NvidiaSmiData :=
  if d.timestamps.length > 100 then
    ⟨takeLast 100 d.timestamps, takeLast 100 d.temperature, takeLast 100 d.power,
      takeLast 100 d.memory_used, takeLast 100 d.memory_total⟩
  else d

/-- The locked append of `fetch_nvidia_smi` (src/app.py lines 249-259):
append one value to each of the five lists, then trim. -/
def appendSample (d : NvidiaSmiData) (now : String) (temp power mem_used mem_total : Rat) :
    NvidiaSmiData :=
  trimWindow ⟨d.timestamps ++ [now], d.temperature ++ [temp], d.power ++ [power],
    d.memory_used ++ [mem_used], d.memory_total ++ [mem_total]⟩

/-! ### A model of Python `json.loads` (src/app.py line 189)

The parser works on `List Char` with explicit fuel; `json_loads` returns
`none` exactly where `json.loads` raises `JSONDecodeError`. -/

/-- JSON values as Python's `json` module produces them (`dict`s kept as
ordered key/value lists). -/
inductive JVal where
  | null
  | bool (b : Bool)
  | num (q : Rat)
  | str (s : String)
  | arr (elems : List JVal)
  | obj (entries : List (String × JVal))
deriving Repr

/-- JSON insignificant whitespace. -/
def isJsonWs (c : Char) : Bool := c = ' ' ∨ c = '\t' ∨ c = '\n' ∨ c = '\r'

/-- Drop leading JSON whitespace. -/
def skipWs (cs : List Char) : List Char := cs.dropWhile isJsonWs

/-- Value of one hexadecimal digit. -/
def hexVal (c : Char) : Option Nat :=
  if '0' ≤ c ∧ c ≤ '9' then some (c.toNat - 48)
  else if 'a' ≤ c ∧ c ≤ 'f' then some (c.toNat - 87)
  else if 'A' ≤ c ∧ c ≤ 'F' then some (c.toNat - 55)
  else none

/-- Body of a JSON string after the opening quote: returns the decoded
characters and the remainder after the closing quote. -/
def parseStringBody : Nat → List Char → Option (List Char × List Char)
  | 0, _ => none
  | fuel + 1, cs =>
    match cs with
    | [] => none
    | '"' :: rest => some ([], rest)
    | '\\' :: esc =>
      match esc with
      | '"' :: rest => (parseStringBody fuel rest).map fun p => ('"' :: p.1, p.2)
      | '\\' :: rest => (parseStringBody fuel rest).map fun p => ('\\' :: p.1, p.2)
      | '/' :: rest => (parseStringBody fuel rest).map fun p => ('/' :: p.1, p.2)
      | 'b' :: rest => (parseStringBody fuel rest).map fun p => ('\x08' :: p.1, p.2)
      | 'f' :: rest => (parseStringBody fuel rest).map fun p => ('\x0c' :: p.1, p.2)
      | 'n' :: rest => (parseStringBody fuel rest).map fun p => ('\n' :: p.1, p.2)
      | 'r' :: rest => (parseStringBody fuel rest).map fun p => ('\r' :: p.1, p.2)
      | 't' :: rest => (parseStringBody fuel rest).map fun p => ('\t' :: p.1, p.2)
      | 'u' :: h1 :: h2 :: h3 :: h4 :: rest => do
        let a ← hexVal h1
        let b ← hexVal h2
        let c ← hexVal h3
        let d ← hexVal h4
        let p ← parseStringBody fuel rest
        return (Char.ofNat (((a * 16 + b) * 16 + c) * 16 + d) :: p.1, p.2)
      | _ => none
    | c :: rest => (parseStringBody fuel rest).map fun p => (c :: p.1, p.2)

/-- Exponent-and-finish step of a JSON number starting from already-parsed
sign, integer and fraction digits. -/
def parseJNumExp (sgn : Int) (ip fp : List Char) (cs : List Char) : Option (Rat × List Char) :=
  match cs with
  | 'e' :: rest => expTail rest
  | 'E' :: rest => expTail rest
  | _ => some (ratOfParts sgn ip fp 0, cs)
where
  expTail (rest : List Char) : Option (Rat × List Char) :=
    let (esgn, rest1) :=
      match rest with
      | '+' :: r => ((1 : Int), r)
      | '-' :: r => ((-1 : Int), r)
      | _ => ((1 : Int), rest)
    let ds := rest1.takeWhile Char.isDigit
    if ds.isEmpty then none
    else some (ratOfParts sgn ip fp (esgn * (digitsToNat ds : Int)), rest1.drop ds.length)

/-- A JSON number: optional minus, integer digits, optional fraction,
optional exponent. -/
def parseJNum (cs : List Char) : Option (Rat × List Char) :=
  let (sgn, cs1) :=
    match cs with
    | '-' :: rest => ((-1 : Int), rest)
    | _ => ((1 : Int), cs)
  let ip := cs1.takeWhile Char.isDigit
  if ip.isEmpty then none
  else
    let cs2 := cs1.drop ip.length
    match cs2 with
    | '.' :: rest =>
      let fp := rest.takeWhile Char.isDigit
      if fp.isEmpty then none else parseJNumExp sgn ip fp (rest.drop fp.length)
    | _ => parseJNumExp sgn ip [] cs2

mutual

/-- One JSON value (leading whitespace allowed), returning the remainder. -/
def parseJVal : Nat → List Char → Option (JVal × List Char)
  | 0, _ => none
  | fuel + 1, cs =>
    match skipWs cs with
    | 'n' :: 'u' :: 'l' :: 'l' :: rest => some (.null, rest)
    | 't' :: 'r' :: 'u' :: 'e' :: rest => some (.bool true, rest)
    | 'f' :: 'a' :: 'l' :: 's' :: 'e' :: rest => some (.bool false, rest)
    | '"' :: rest => (parseStringBody (fuel + 1) rest).map fun p => (.str (String.mk p.1), p.2)
    | '[' :: rest =>
      match skipWs rest with
      | ']' :: rest2 => some (.arr [], rest2)
      | cs2 => (parseArrItems fuel cs2).map fun p => (.arr p.1, p.2)
    | '\x7b' :: rest =>
      match skipWs rest with
      | '\x7d' :: rest2 => some (.obj [], rest2)
      | cs2 => (parseObjItems fuel cs2).map fun p => (.obj p.1, p.2)
    | cs1 => (parseJNum cs1).map fun p => (.num p.1, p.2)

/-- Comma-separated array items up to the closing bracket. -/
def parseArrItems : Nat → List Char → Option (List JVal × List Char)
  | 0, _ => none
  | fuel + 1, cs => do
    let (v, rest) ← parseJVal fuel cs
    match skipWs rest with
    | ',' :: rest2 => do
      let (vs, rest3) ← parseArrItems fuel rest2
      return (v :: vs, rest3)
    | ']' :: rest2 => return ([v], rest2)
    | _ => none

/-- Comma-separated `"key": value` members up to the closing brace. -/
def parseObjItems : Nat → List Char → Option (List (String × JVal) × List Char)
  | 0, _ => none
  | fuel + 1, cs =>
    match skipWs cs with
    | '"' :: rest => do
      let (k, rest1) ← parseStringBody (fuel + 1) rest
      match skipWs rest1 with
      | ':' :: rest2 => do
        let (v, rest3) ← parseJVal fuel rest2
        match skipWs rest3 with
        | ',' :: rest4 => do
          let (kvs, rest5) ← parseObjItems fuel rest4
          return ((String.mk k, v) :: kvs, rest5)
        | '\x7d' :: rest4 => return ([(String.mk k, v)], rest4)
        | _ => none
      | _ => none
    | _ => none

end

/-- Model of Python `json.loads`: parse one value and require only
whitespace to remain; `none` models a raised `JSONDecodeError`. -/
def json_loads (s : String) : Option JVal :=
  let cs := s.toList
  match parseJVal (cs.length + 1) cs with
  | some (v, rest) => if skipWs rest = [] then some v else none
  | none => none

/-- Python `needle in hay` on strings: substring containment. -/
def strContains (hay needle : String) : Bool :=
  let n := needle.toList
  let h := hay.toList
  (List.range (h.length + 1)).any fun i => (h.drop i).take n.length == n

/-- Python `v == "some string"` for a JSON value: only an equal string
compares equal (no cross-type equality arises for JSON payloads). -/
def pyEqStr (v : JVal) (s : String) : Bool :=
  match v with
  | .str t => t = s
  | _ => false

/-- Python `'error' in data` (src/app.py line 191): key membership for a
dict, element equality for a list, substring test for a string; `none`
models the `TypeError` raised for the other types. -/
def pyInError : JVal → Option Bool
  | .obj kvs => some (kvs.any fun kv => kv.1 = "error")
  | .arr xs => some (xs.any fun v => pyEqStr v "error")
  | .str s => some (strContains s "error")
  | _ => none

/-- Lookup in a Python dict built by repeated insertion: the last binding of
a key wins. -/
def pyDictGet (kvs : List (String × JVal)) (k : String) : Option JVal :=
  (kvs.reverse.find? fun kv => kv.1 = k).map fun kv => kv.2

/-- Python `data['error']` (src/app.py line 199): defined for a dict holding
the key; `none` models the `TypeError`/`KeyError` raised otherwise. -/
def pySubscriptError : JVal → Option JVal
  | .obj kvs => pyDictGet kvs "error"
  | _ => none

/-! ### Application state and the two collectors -/

/-- The kinds of background loop threads `start_monitoring` spawns
(src/app.py lines 436-445). -/
inductive ThreadKind where
  | nvidiaSmiMonitor
  | tensorboardMonitor (experiment_path : String)
deriving Repr, DecidableEq

/-- The module-level mutable state of src/app.py (lines 34-46):
`tensorboard_data` (a dict, kept as an ordered key/value list),
`nvidia_smi_data`, `tensorboard_experiments`, `monitoring_active` and
`monitoring_threads`. -/
structure AppState where
  tensorboard_data : List (String × JVal)
  nvidia_smi_data : NvidiaSmiData
  tensorboard_experiments : List String
  monitoring_active : Bool
  monitoring_threads : List ThreadKind

/-- The state at module load (src/app.py lines 34-46). -/
def initialState : AppState :=
  { tensorboard_data := []
    nvidia_smi_data := emptyNvidiaSmiData
    tensorboard_experiments := []
    monitoring_active := false
    monitoring_threads := [] }

/-- Python dict assignment `d[k] = v` on an ordered key/value list:
replace the binding in place when the key exists, append otherwise. -/
def dictSet (kvs : List (String × JVal)) (k : String) (v : JVal) : List (String × JVal) :=
  if kvs.any (fun kv => kv.1 = k) then
    kvs.map fun kv => if kv.1 = k then (k, v) else kv
  else kvs ++ [(k, v)]

/-- Python `d.get(k)` on the state's dict (keys are unique because every
insertion goes through `dictSet`). -/
def dictGet (kvs : List (String × JVal)) (k : String) : Option JVal :=
  (kvs.find? fun kv => kv.1 = k).map fun kv => kv.2

/-- Python `experiment_path.lstrip('/')` (src/app.py lines 203, 331):
remove every leading slash. -/
def pyLstripSlash (s : String) : String :=
  String.mk (s.toList.dropWhile fun c => c = '/')

/-- The constant query command of `fetch_nvidia_smi` (src/app.py line 229). -/
def NVIDIA_SMI_COMMAND : String :=
  "nvidia-smi --query-gpu=temperature.gpu,power.draw,memory.used,memory.total --format=csv,noheader,nounits"

/-- The JSON dictionary `fetch_nvidia_smi` returns (its `command`,
`stdout`, `stderr`, `returncode` keys). -/
structure NvFetchResult where
  command : String
  stdout : String
  stderr : String
  returncode : Int
deriving Repr, DecidableEq

/-- Embedding of `fetch_nvidia_smi` (src/app.py lines 225-274).  `outcome`
is what `subprocess.run` did for the ssh invocation and `now` is
`datetime.now().isoformat()`.  A spawn failure or a parse failure lands in
the `except` branch (lines 267-274): state untouched, envelope with empty
stdout, the exception text as stderr and returncode 1.  A non-zero exit or
an empty stripped output appends nothing and returns the raw envelope.
Only a fully parsed line appends a sample (under the lock) and trims. -/
def fetch_nvidia_smi (outcome : ExecOutcome) (now : String) (s : AppState) :
    AppState × NvFetchResult :=
  match run_ssh_command outcome with
  | .error e => (s, ⟨NVIDIA_SMI_COMMAND, "", e, 1⟩)
  | .ok (stdout, stderr, returncode) =>
    if returncode ≠ 0 then (s, ⟨NVIDIA_SMI_COMMAND, stdout, stderr, returncode⟩)
    else
      let output := pyStrip stdout
      if output = "" then (s, ⟨NVIDIA_SMI_COMMAND, stdout, stderr, returncode⟩)
      else
        match parseGpuLine output with
        | .error e => (s, ⟨NVIDIA_SMI_COMMAND, "", e, 1⟩)
        | .ok (temp, power, mem_used, mem_total) =>
          ({ s with nvidia_smi_data := appendSample s.nvidia_smi_data now temp power mem_used mem_total },
            ⟨NVIDIA_SMI_COMMAND, stdout, stderr, returncode⟩)

/-- The JSON dictionary `fetch_tensorboard_data` returns: `data` (`None` on
every failure), diagnostics, and the optional extra `error` key that is set
only on the reported-failure path (src/app.py line 199). -/
structure TbFetchResult where
  data : Option JVal
  command : String
  stdout : String
  stderr : String
  returncode : Int
  error : Option JVal
deriving Repr

/-- The command string `fetch_tensorboard_data` composes (src/app.py line 176). -/
def tbCommand (cfg : Config) (experiment_path : String) : String :=
  "source " ++ cfg.REMOTE_VENV_PATH ++ "/bin/activate && python " ++
    REMOTE_SCRIPT_PATH ++ " \"" ++ experiment_path ++ "\""

/-- Exception text stand-in for `json.JSONDecodeError` raised by
`json.loads` on unparsable input (src/app.py line 189). -/
def jsonDecodeMsg : String := "Expecting value: line 1 column 1 (char 0)"

/-- Exception text stand-in for the `TypeError` raised by `'error' in data`
when the parsed JSON value is not a container (src/app.py line 191). -/
def containsTypeMsg : String := "argument of type is not iterable"

/-- Exception text stand-in for the `TypeError` raised by `data['error']`
when the parsed JSON value is a list or a string (src/app.py line 199). -/
def subscriptTypeMsg : String := "indices must be integers"

/-- Embedding of `fetch_tensorboard_data` (src/app.py lines 171-223).
`outcome` is what `subprocess.run` did for the ssh invocation.  Every
exception inside the `try` (spawn failure, `json.loads` failure, `in` /
subscript type errors) is converted by the `except` branch (lines 215-223)
into an envelope with `data = None`, empty stdout, the exception text as
stderr and returncode 1, leaving state untouched.  A non-zero exit or empty
stdout returns early with `data = None` (lines 179-187).  A parsed object
carrying an `error` key returns the envelope with that value under `error`
and mutates nothing (lines 191-200).  Only the remaining case stores the
parsed object under the normalized path (lines 202-206). -/
def fetch_tensorboard_data (cfg : Config) (experiment_path : String) (outcome : ExecOutcome)
    (s : AppState) : AppState × TbFetchResult :=
  let command := tbCommand cfg experiment_path
  match run_ssh_command outcome with
  | .error e => (s, ⟨none, command, "", e, 1, none⟩)
  | .ok (stdout, stderr, returncode) =>
    if returncode ≠ 0 ∨ stdout = "" then
      (s, ⟨none, command, stdout, stderr, returncode, none⟩)
    else
      match json_loads stdout with
      | none => (s, ⟨none, command, "", jsonDecodeMsg, 1, none⟩)
      | some data =>
        match pyInError data with
        | none => (s, ⟨none, command, "", containsTypeMsg, 1, none⟩)
        | some true =>
          match pySubscriptError data with
          | none => (s, ⟨none, command, "", subscriptTypeMsg, 1, none⟩)
          | some errVal => (s, ⟨none, command, stdout, stderr, returncode, some errVal⟩)
        | some false =>
          let normalized_path := pyLstripSlash experiment_path
          ({ s with tensorboard_data := dictSet s.tensorboard_data normalized_path data },
            ⟨some data, command, stdout, stderr, returncode, none⟩)

/-- Embedding of the `GET /api/tensorboard/<path>` handler
(src/app.py lines 327-345): normalize the path, look it up under the lock
and return the stored entry, defaulting to the empty object. -/
def get_tensorboard_data (s : AppState) (experiment_path : String) : JVal :=
  (dictGet s.tensorboard_data (pyLstripSlash experiment_path)).getD (.obj [])

/-! ### Monitoring controller and output endpoints -/

/-- Local path of the helper script pushed to the remote host
(src/app.py lines 67-68); stands for `os.path.join(SCRIPT_DIR,
'extract_tensorboard.py')`, whose directory prefix depends on the install
location and plays no role in any claim. -/
def TENSORBOARD_SCRIPT_PATH : String := "extract_tensorboard.py"

/-- Status field of the `/api/start-monitoring` response
(src/app.py lines 382, 404, 411, 449). -/
inductive StartStatus where
  | started
  | already_running
  | error
deriving Repr, DecidableEq

/-- The `/api/start-monitoring` JSON response: its `status`, optional
`message` and `output` keys, plus — as instrumentation of the embedding —
the list of `threading.Thread(...).start()` calls the handler made. -/
structure StartResponse where
  status : StartStatus
  message : Option String
  output : String
  threadsStarted : List ThreadKind
deriving Repr, DecidableEq

/-- The environment one `/api/start-monitoring` call interacts with: the
subprocess outcomes of the remote mkdir, of the script-push rsync, of the
priming nvidia-smi call (with its wall-clock timestamp) and of the priming
tensorboard fetch. -/
structure StartEnv where
  mkdirOutcome : ExecOutcome
  rsyncOutcome : ExecOutcome
  nvidiaOutcome : ExecOutcome
  nvidiaNow : String
  tbOutcome : ExecOutcome
deriving Repr, DecidableEq

/-- Python truthiness of the optional `experiment_path` request field
(src/app.py lines 428, 442 test `if experiment_path:`, so an empty string
behaves like an absent one). -/
def truthyPath (experiment_path : Option String) : Option String :=
  match experiment_path with
  | some p => if p = "" then none else some p
  | none => none

/-- Embedding of the `/api/start-monitoring` handler (src/app.py lines
376-451).  If a session is active it returns `already_running` untouched
(lines 381-382).  Otherwise it runs the remote mkdir and the script-push
rsync inside a `try` (lines 390-414): a spawn failure of either is caught
and reported as `error`; a non-zero rsync exit aborts with `error` and the
message `Failed to sync tensorboard script`; the mkdir exit status is never
examined.  On success it sets the active flag, resets the thread list,
performs the priming fetches, spawns the loop threads and reports
`started` (lines 416-451). -/
def start_monitoring (cfg : Config) (experiment_path : Option String) (env : StartEnv)
    (s : AppState) : AppState × StartResponse :=
  if s.monitoring_active then
    (s, ⟨.already_running, none, "Monitoring already active", []⟩)
  else
    let mkdir_command := "mkdir -p " ++ REMOTE_SCRIPT_DIR
    match run_ssh_command env.mkdirOutcome with
    | .error e => (s, ⟨.error, some e, "\nError: " ++ e, []⟩)
    | .ok (mout, merr, _mrc) =>
      let outputs := ["$ " ++ mkdir_command ++ "\n" ++ mout ++ merr]
      match run_rsync cfg TENSORBOARD_SCRIPT_PATH REMOTE_SCRIPT_PATH false env.rsyncOutcome with
      | .error e =>
        (s, ⟨.error, some e, "\n".intercalate outputs ++ "\nError: " ++ e, []⟩)
      | .ok (rsync_command, rout, rerr, rsync_returncode) =>
        let outputs := outputs ++ ["$ " ++ rsync_command ++ "\n" ++ rout ++ rerr]
        if rsync_returncode ≠ 0 then
          (s, ⟨.error, some "Failed to sync tensorboard script", "\n".intercalate outputs, []⟩)
        else
          let s1 := { s with monitoring_active := true, monitoring_threads := [] }
          let s2 := (fetch_nvidia_smi env.nvidiaOutcome env.nvidiaNow s1).1
          let nvidia_result := (fetch_nvidia_smi env.nvidiaOutcome env.nvidiaNow s1).2
          let outputs := outputs ++
            (if nvidia_result.returncode = 0 then ["Initial GPU metrics fetched successfully"] else [])
          match truthyPath experiment_path with
          | none =>
            ({ s2 with monitoring_threads := s2.monitoring_threads ++ [.nvidiaSmiMonitor] },
              ⟨.started, none,
                "\n".intercalate (outputs ++ ["Started nvidia-smi monitoring thread (10s interval)"]),
                [.nvidiaSmiMonitor]⟩)
          | some p =>
            let s3 := (fetch_tensorboard_data cfg p env.tbOutcome s2).1
            let tb_result := (fetch_tensorboard_data cfg p env.tbOutcome s2).2
            let outputs := outputs ++
              (if tb_result.returncode = 0 then
                ["Initial tensorboard data fetched for: " ++ p]
              else
                ["Warning: Could not fetch initial tensorboard data: " ++ tb_result.stderr])
            ({ s3 with monitoring_threads :=
                s3.monitoring_threads ++ [.nvidiaSmiMonitor] ++ [.tensorboardMonitor p] },
              ⟨.started, none,
                "\n".intercalate (outputs ++
                  ["Started nvidia-smi monitoring thread (10s interval)",
                    "Started tensorboard monitoring thread (30s interval) for: " ++ p]),
                [.nvidiaSmiMonitor, .tensorboardMonitor p]⟩)

/-- Embedding of the `/api/stop-monitoring` handler (src/app.py lines
453-458): clear the active flag (without the lock) and report `stopped`. -/
def stop_monitoring (s : AppState) : AppState × String :=
  ({ s with monitoring_active := false }, "stopped")

/-- Content of `LOCAL_OUTPUT_PATH` (src/app.py line 58): `none` when the
file does not exist, `some text` once a successful sync wrote it. -/
structure OutputFileState where
  content : Option String
deriving Repr, DecidableEq

/-- The `/api/sync-output` JSON response. -/
structure SyncOutputResponse where
  status : String
  message : Option String
  output : String
  returncode : Int
deriving Repr, DecidableEq

/-- Embedding of the `/api/sync-output` handler (src/app.py lines 518-549).
`remoteContent` is what rsync would write to the local file when it exits 0;
a spawn failure is caught by the `except` (lines 543-549) and converted to
an error envelope; a non-zero exit reports `error` and leaves the local
file as it was. -/
def sync_output (cfg : Config) (outcome : ExecOutcome) (remoteContent : String)
    (fs : OutputFileState) : OutputFileState × SyncOutputResponse :=
  match run_rsync cfg cfg.MAIN_THREAD_OUTPUT "static/output.txt" true outcome with
  | .error e => (fs, ⟨"error", some e, "Error: " ++ e, 1⟩)
  | .ok (command_str, stdout, stderr, returncode) =>
    let output := "$ " ++ command_str ++ "\n" ++ stdout ++ stderr
    if returncode = 0 then
      (⟨some remoteContent⟩, ⟨"success", none, output, returncode⟩)
    else
      (fs, ⟨"error", some stderr, output, returncode⟩)

/-- The `/api/output` JSON response: `status` plus either `content` or
`message`. -/
structure GetOutputResponse where
  status : String
  message : Option String
  content : Option String
deriving Repr, DecidableEq

/-- Embedding of the `/api/output` handler (src/app.py lines 551-571):
return the file's content when it exists, otherwise the fixed error
message.  (The read itself cannot fail in the model; the source's `except`
branch only covers OS-level read faults.) -/
def get_output (fs : OutputFileState) : GetOutputResponse :=
  match fs.content with
  | some c => ⟨"success", none, some c⟩
  | none => ⟨"error", some "Output file not found. Please sync first.", none⟩

/-! ### Lock-discipline instrumentation

Each handler/collector is also described by the sequence of lock
operations and shared-structure writes its body performs, transliterated
from the `with data_lock:` blocks and the bare global assignments of
src/app.py.  Branch conditions that decide whether a write happens at all
are Boolean parameters of the trace. -/

/-- The shared structures of src/app.py (lines 34-46). -/
inductive Shared where
  | gpuWindow
  | tbData
  | activeFlag
  | threadsList
  | experimentsList
deriving Repr, DecidableEq

/-- One primitive event: acquiring / releasing `data_lock`, or writing one
shared structure. -/
inductive LockOp where
  | acquire
  | release
  | write (target : Shared)
deriving Repr, DecidableEq

/-- Checks, scanning left to right with current lock state `held`, that
every write to `target` happens while the lock is held. -/
def writesLockedFrom (held : Bool) (target : Shared) : List LockOp → Bool
  | [] => true
  | .acquire :: rest => writesLockedFrom true target rest
  | .release :: rest => writesLockedFrom false target rest
  | .write t :: rest => (t ≠ target || held) && writesLockedFrom held target rest

/-- Every write to `target` in the trace happens under the lock. -/
def targetWritesLocked (target : Shared) (ops : List LockOp) : Bool :=
  writesLockedFrom false target ops

/-- Write/lock trace of `fetch_nvidia_smi` (src/app.py lines 225-274): the
only mutation is the append-and-trim of the GPU window inside
`with data_lock:` (lines 249-259), performed exactly when a sample parses
(`appends`). -/
def fetch_nvidia_smi_ops (appends : Bool) : List LockOp :=
  if appends then [.acquire, .write .gpuWindow, .release] else []

/-- Write/lock trace of `fetch_tensorboard_data` (src/app.py lines
171-223): the only mutation is the dict store inside `with data_lock:`
(lines 205-206), performed exactly when a fresh object is stored
(`stores`). -/
def fetch_tensorboard_data_ops (stores : Bool) : List LockOp :=
  if stores then [.acquire, .write .tbData, .release] else []

/-- Write/lock trace of `list_tensorboard_experiments` (src/app.py lines
131-169): the experiment list is replaced inside `with data_lock:`
(lines 151-152) on the success path only. -/
def list_tensorboard_experiments_ops (stores : Bool) : List LockOp :=
  if stores then [.acquire, .write .experimentsList, .release] else []

/-- Write/lock trace of the `/api/start-monitoring` handler (src/app.py
lines 376-451).  On the early `already_running` return and on the
sync-failure returns nothing is written.  On the success path the handler
assigns `monitoring_active = True` and `monitoring_threads = []` with no
lock held (lines 416-417), runs the two priming fetches (whose own locked
writes are governed by `nvAppends` / `tbStores`), and appends to
`monitoring_threads` with no lock held (lines 438, 445); the tensorboard
parts exist only when a truthy experiment path was supplied (`tbPath`). -/
def start_monitoring_ops (alreadyActive syncFailed nvAppends tbPath tbStores : Bool) :
    List LockOp :=
  if alreadyActive then []
  else if syncFailed then []
  else
    [.write .activeFlag, .write .threadsList] ++
      fetch_nvidia_smi_ops nvAppends ++
      (if tbPath then fetch_tensorboard_data_ops tbStores else []) ++
      [.write .threadsList] ++
      (if tbPath then [.write .threadsList] else [])

/-- Write/lock trace of the `/api/stop-monitoring` handler (src/app.py
lines 453-458): the single assignment `monitoring_active = False` at line
457, with no lock held. -/
def stop_monitoring_ops : List LockOp :=
  [.write .activeFlag]

/-! ### GPU sampler traces (for the window invariant) -/

/-- One sampler invocation's environment: the subprocess outcome and the
`datetime.now().isoformat()` timestamp. -/
def SampleInput : Type := ExecOutcome × String

/-- One row of the GPU window. -/
def GpuSample : Type := String × Rat × Rat × Rat × Rat

/-- The sample a given invocation appends, if any: mirrors the branch
structure of `fetch_nvidia_smi` (non-zero exit, empty stripped output and
parse failures all append nothing). -/
def sampleOf (i : SampleInput) : Option GpuSample :=
  match i.1 with
  | .spawnFailure _ => none
  | .completed stdout _ returncode =>
    if returncode ≠ 0 then none
    else
      let output := pyStrip stdout
      if output = "" then none
      else
        match parseGpuLine output with
        | .error _ => none
        | .ok (temp, power, mem_used, mem_total) => some (i.2, temp, power, mem_used, mem_total)

/-- Runs a sequence of `fetch_nvidia_smi` invocations, threading the state. -/
def runGpuSampler (inputs : List SampleInput) (s : AppState) : AppState :=
  inputs.foldl (fun st i => (fetch_nvidia_smi i.1 i.2 st).1) s

/-- The window determined by a full append history: each of the five
sequences is the suffix of the most recent 100 entries. -/
def windowOfHistory (h : List GpuSample) : NvidiaSmiData :=
  ⟨takeLast 100 (h.map fun x => x.1),
    takeLast 100 (h.map fun x => x.2.1),
    takeLast 100 (h.map fun x => x.2.2.1),
    takeLast 100 (h.map fun x => x.2.2.2.1),
    takeLast 100 (h.map fun x => x.2.2.2.2)⟩

/-! ### Analysis predicates and sample values used by concrete evaluations -/

/-- Whether one `/api/sync-output` environment is a failure (the rsync
could not be spawned, or exited non-zero) — the runs after which the
handler leaves no synced file behind. -/
def syncFailedOutcome : ExecOutcome → Bool
  | .completed _ _ returncode => returncode ≠ 0
  | .spawnFailure _ => true

/-- A concrete fully-populated configuration, for evaluating the embedding
on closed inputs. -/
def sampleConfig : Config :=
  { SSH_HOST := "gpu.example.org"
    SSH_PORT := "22"
    SSH_KEY_PATH := "~/.ssh/id_ed25519"
    SSH_USERNAME := "user"
    TENSORBOARD_LOGS_PATH := "/data/tb"
    IMAGE_SAMPLES_PATH := "/data/images"
    REMOTE_VENV_PATH := "/home/user/venv"
    MAIN_THREAD_OUTPUT := "/data/out.txt"}

/-- A helper emission reporting an embedded error:
the JSON text `{"error": "x"}` (src/extract_tensorboard.py line 26). -/
def sampleErrorStdout : String := "\x7b\"error\": \"x\"\x7d"

/-- A start-monitoring environment in which every remote command completes
and exits 0 (the GPU priming fetch returns an empty line, appending
nothing). -/
def sampleStartEnv : StartEnv :=
  { mkdirOutcome := .completed "" "" 0
    rsyncOutcome := .completed "" "" 0
    nvidiaOutcome := .completed "" "" 0
    nvidiaNow := "2026-01-01T00:00:00"
    tbOutcome := .completed "" "" 0 }

/-- A start-monitoring environment in which the remote mkdir exits 1 while
the script-push rsync exits 0. -/
def sampleStartEnvMkdirFails : StartEnv :=
  { mkdirOutcome := .completed "" "mkdir: permission denied" 1
    rsyncOutcome := .completed "" "" 0
    nvidiaOutcome := .completed "" "" 0
    nvidiaNow := "2026-01-01T00:00:00"
    tbOutcome := .completed "" "" 0 }

/-- Two unsuccessful sync-output runs: an rsync exiting 1 and an rsync that
could not be spawned. -/
def sampleSyncFailures : List (ExecOutcome × String) :=
  [(.completed "" "rsync: connection unexpectedly closed" 1, "unused"),
    (.spawnFailure "No such file or directory: rsync", "unused")]

/-! ### Lemmas about `takeLast` and the window invariant -/

theorem takeLast_length (n : Nat) (l : List α) : (takeLast n l).length = min n l.length := by
  simp only [takeLast, List.length_drop]
  omega

theorem takeLast_of_le (n : Nat) (l : List α) (h : l.length ≤ n) : takeLast n l = l := by
  simp only [takeLast, Nat.sub_eq_zero_of_le h, List.drop_zero]

theorem takeLast_takeLast (a b : Nat) (l : List α) :
    takeLast a (takeLast b l) = takeLast (min a b) l := by
  simp only [takeLast, List.length_drop, List.drop_drop]
  congr 1
  omega

theorem takeLast_append_singleton (n : Nat) (hn : 1 ≤ n) (l : List α) (x : α) :
    takeLast n (l ++ [x]) = takeLast (n - 1) l ++ [x] := by
  simp only [takeLast, List.length_append, List.length_singleton]
  rw [List.drop_append_of_le_length (by omega)]
  congr 2
  omega

theorem takeLast_append_trim (l : List α) (x : α) :
    takeLast 100 (takeLast 100 l ++ [x]) = takeLast 100 (l ++ [x]) := by
  rw [takeLast_append_singleton 100 (by omega), takeLast_append_singleton 100 (by omega),
    takeLast_takeLast]
  norm_num

theorem appendSample_windowOfHistory (h : List GpuSample) (smp : GpuSample) :
    appendSample (windowOfHistory h) smp.1 smp.2.1 smp.2.2.1 smp.2.2.2.1 smp.2.2.2.2 =
      windowOfHistory (h ++ [smp]) := by
  unfold appendSample trimWindow windowOfHistory
  simp only [List.map_append, List.map_cons, List.map_nil]
  by_cases hlen : 100 ≤ h.length
  · have hcond : (takeLast 100 (h.map fun x => x.1) ++ [smp.1]).length > 100 := by
      simp only [List.length_append, takeLast_length, List.length_map, List.length_singleton]
      omega
    rw [if_pos hcond]
    simp only [NvidiaSmiData.mk.injEq]
    exact ⟨takeLast_append_trim _ _, takeLast_append_trim _ _, takeLast_append_trim _ _,
      takeLast_append_trim _ _, takeLast_append_trim _ _⟩
  · have hcond : ¬ (takeLast 100 (h.map fun x => x.1) ++ [smp.1]).length > 100 := by
      simp only [List.length_append, takeLast_length, List.length_map, List.length_singleton]
      omega
    rw [if_neg hcond]
    have heach : ∀ (β : Type) (f : GpuSample → β),
        takeLast 100 (h.map f) ++ [f smp] = takeLast 100 (h.map f ++ [f smp]) := by
      intro β f
      rw [takeLast_of_le 100 (h.map f) (by simp only [List.length_map]; omega),
        takeLast_of_le 100 (h.map f ++ [f smp])
          (by simp only [List.length_append, List.length_map, List.length_singleton]; omega)]
    simp only [NvidiaSmiData.mk.injEq]
    exact ⟨heach _ _, heach _ _, heach _ _, heach _ _, heach _ _⟩

theorem fetch_nvidia_smi_state (i : SampleInput) (s : AppState) :
    (fetch_nvidia_smi i.1 i.2 s).1 =
      match sampleOf i with
      | none => s
      | some smp =>
        { s with nvidia_smi_data :=
            appendSample s.nvidia_smi_data smp.1 smp.2.1 smp.2.2.1 smp.2.2.2.1 smp.2.2.2.2 } := by
  obtain ⟨o, now⟩ := i
  cases o with
  | spawnFailure m => rfl
  | completed stdout stderr rc =>
    simp only [fetch_nvidia_smi, sampleOf, run_ssh_command]
    by_cases h1 : rc ≠ 0
    · simp only [if_pos h1]
    · simp only [if_neg h1]
      by_cases h2 : pyStrip stdout = ""
      · simp only [if_pos h2]
      · simp only [if_neg h2]
        cases hp : parseGpuLine (pyStrip stdout) with
        | error e => simp only []
        | ok v => simp only []

theorem runGpuSampler_window (inputs : List SampleInput) :
    ∀ (s : AppState) (h : List GpuSample),
      s.nvidia_smi_data = windowOfHistory h →
      (runGpuSampler inputs s).nvidia_smi_data =
        windowOfHistory (h ++ inputs.filterMap sampleOf) := by
  induction inputs with
  | nil =>
    intro s h hs
    simpa [runGpuSampler] using hs
  | cons i rest ih =>
    intro s h hs
    have hstep : runGpuSampler (i :: rest) s = runGpuSampler rest (fetch_nvidia_smi i.1 i.2 s).1 := by
      simp [runGpuSampler]
    rw [hstep]
    cases hsm : sampleOf i with
    | none =>
      have hkeep : (fetch_nvidia_smi i.1 i.2 s).1 = s := by
        rw [fetch_nvidia_smi_state, hsm]
      rw [hkeep, List.filterMap_cons, hsm]
      exact ih s h hs
    | some smp =>
      have hnext : (fetch_nvidia_smi i.1 i.2 s).1.nvidia_smi_data =
          windowOfHistory (h ++ [smp]) := by
        rw [fetch_nvidia_smi_state, hsm]
        simp only [hs]
        exact appendSample_windowOfHistory h smp
      rw [List.filterMap_cons, hsm]
      have := ih (fetch_nvidia_smi i.1 i.2 s).1 (h ++ [smp]) hnext
      simpa [List.append_assoc] using this

/-- C1: for every sequence of GPU-sampler invocations starting from the
initial empty window, the five parallel sequences of the GPU window
(timestamps, temperature, power, memory_used, memory_total) always have
equal length, the length never exceeds 100, and each sequence is exactly
the suffix of the most recent 100 elements of its full append history
(oldest entries evicted first). -/
theorem C1_gpu_window_bounded_parallel (inputs : List SampleInput) :
    (runGpuSampler inputs initialState).nvidia_smi_data.timestamps =
        takeLast 100 ((inputs.filterMap sampleOf).map fun x => x.1) ∧
    (runGpuSampler inputs initialState).nvidia_smi_data.temperature =
        takeLast 100 ((inputs.filterMap sampleOf).map fun x => x.2.1) ∧
    (runGpuSampler inputs initialState).nvidia_smi_data.power =
        takeLast 100 ((inputs.filterMap sampleOf).map fun x => x.2.2.1) ∧
    (runGpuSampler inputs initialState).nvidia_smi_data.memory_used =
        takeLast 100 ((inputs.filterMap sampleOf).map fun x => x.2.2.2.1) ∧
    (runGpuSampler inputs initialState).nvidia_smi_data.memory_total =
        takeLast 100 ((inputs.filterMap sampleOf).map fun x => x.2.2.2.2) ∧
    (runGpuSampler inputs initialState).nvidia_smi_data.temperature.length =
        (runGpuSampler inputs initialState).nvidia_smi_data.timestamps.length ∧
    (runGpuSampler inputs initialState).nvidia_smi_data.power.length =
        (runGpuSampler inputs initialState).nvidia_smi_data.timestamps.length ∧
    (runGpuSampler inputs initialState).nvidia_smi_data.memory_used.length =
        (runGpuSampler inputs initialState).nvidia_smi_data.timestamps.length ∧
    (runGpuSampler inputs initialState).nvidia_smi_data.memory_total.length =
        (runGpuSampler inputs initialState).nvidia_smi_data.timestamps.length ∧
    (runGpuSampler inputs initialState).nvidia_smi_data.timestamps.length ≤ 100 := by
  have hw := runGpuSampler_window inputs initialState [] rfl
  rw [List.nil_append] at hw
  rw [hw]
  refine ⟨rfl, rfl, rfl, rfl, rfl, ?_, ?_, ?_, ?_, ?_⟩
  all_goals simp only [windowOfHistory, takeLast_length, List.length_map]
  all_goals omega

/-- C6: when the GPU-sensor command succeeds (exit status 0) but its output
line is malformed — too few comma-separated fields, or a non-numeric token,
so that the parse block raises — the sampler appends nothing to any of the
five window sequences: the state is exactly the same before and after the
call. -/
theorem C6_malformed_line_keeps_window (stdout stderr now e : String) (s : AppState)
    (hparse : parseGpuLine (pyStrip stdout) = .error e) :
    (fetch_nvidia_smi (.completed stdout stderr 0) now s).1 = s := by
  have hsm : sampleOf (ExecOutcome.completed stdout stderr 0, now) = none := by
    simp only [sampleOf]
    rw [if_neg (fun h => h rfl)]
    by_cases h2 : pyStrip stdout = ""
    · rw [if_pos h2]
    · rw [if_neg h2, hparse]
  have hstate := fetch_nvidia_smi_state (ExecOutcome.completed stdout stderr 0, now) s
  rw [hsm] at hstate
  exact hstate

/-- Concrete run for C6: the two-field line `45, 100` makes the parse block
fail with an index error and the sampler leaves the initial state
untouched. -/
theorem C6_malformed_line_keeps_window_witness :
    parseGpuLine (pyStrip "45, 100") = .error "list index out of range" ∧
    (fetch_nvidia_smi (.completed "45, 100" "" 0) "2026-01-01T00:00:00" initialState).1 =
      initialState :=
  ⟨rfl, C6_malformed_line_keeps_window "45, 100" "" "2026-01-01T00:00:00"
    "list index out of range" initialState rfl⟩

/-- C3 as stated is false at a concrete input: `run_ssh_command` has no
exception handler, so a process-spawn failure is not converted into a
result with exit code 1 — it propagates as an exception (an `Except.error`
in the embedding) and no result triple exists. -/
theorem C3_counterexample :
    ¬ ∃ stdout stderr returncode,
      run_ssh_command (.spawnFailure "No such file or directory: ssh") =
        .ok (stdout, stderr, returncode) := by
  rintro ⟨stdout, stderr, returncode, h⟩
  exact Except.noConfusion h

/-- C3 amended: `run_ssh_command` itself propagates a process-spawn failure
as an exception; each collector that calls it catches the exception at its
own boundary and converts it into a result envelope with synthetic
returncode 1 and the failure text in stderr, leaving shared state
unchanged. -/
theorem C3_spawn_failure_caught_by_callers (cfg : Config) (msg now p : String) (s : AppState) :
    run_ssh_command (.spawnFailure msg) = .error msg ∧
    (fetch_nvidia_smi (.spawnFailure msg) now s).1 = s ∧
    (fetch_nvidia_smi (.spawnFailure msg) now s).2 = ⟨NVIDIA_SMI_COMMAND, "", msg, 1⟩ ∧
    (fetch_tensorboard_data cfg p (.spawnFailure msg) s).1 = s ∧
    (fetch_tensorboard_data cfg p (.spawnFailure msg) s).2.returncode = 1 ∧
    (fetch_tensorboard_data cfg p (.spawnFailure msg) s).2.stderr = msg ∧
    (fetch_tensorboard_data cfg p (.spawnFailure msg) s).2.data = none :=
  ⟨rfl, rfl, rfl, rfl, rfl, rfl, rfl⟩

/-- C9: a scalar fetch whose remote command exits 0 with empty stdout is
treated as a failure: the state (in particular the experiment-metrics
mapping) is unchanged and the envelope carries `data = none` with no
`error` field — the same early-return envelope shape as a non-zero exit,
with no parse attempted. -/
theorem C9_empty_stdout_is_failure (cfg : Config) (p stderr : String) (s : AppState) :
    fetch_tensorboard_data cfg p (.completed "" stderr 0) s =
      (s, ⟨none, tbCommand cfg p, "", stderr, 0, none⟩) := by
  simp [fetch_tensorboard_data, run_ssh_command]

/-- C2 as stated is false at a concrete site: the `/api/stop-monitoring`
handler writes the active-session flag (`monitoring_active = False`,
src/app.py line 457) with no lock held, so not every mutation of the three
shared structures happens under the exclusion lock. -/
theorem C2_counterexample :
    targetWritesLocked Shared.activeFlag stop_monitoring_ops = false := rfl

/-- C2 amended: mutations of the GPU window and of the experiment-metrics
mapping happen only while holding the lock (in the collectors and through
every branch of start-monitoring), but the active-session flag is written
outside the lock: start-monitoring sets it (line 416) and stop-monitoring
clears it (line 457) with no lock held. -/
theorem C2_lock_discipline (appends stores nvAppends tbPath tbStores : Bool) :
    targetWritesLocked .gpuWindow (fetch_nvidia_smi_ops appends) = true ∧
    targetWritesLocked .tbData (fetch_tensorboard_data_ops stores) = true ∧
    targetWritesLocked .gpuWindow
      (start_monitoring_ops false false nvAppends tbPath tbStores) = true ∧
    targetWritesLocked .tbData
      (start_monitoring_ops false false nvAppends tbPath tbStores) = true ∧
    targetWritesLocked .gpuWindow stop_monitoring_ops = true ∧
    targetWritesLocked .tbData stop_monitoring_ops = true ∧
    targetWritesLocked .activeFlag stop_monitoring_ops = false ∧
    targetWritesLocked .activeFlag
      (start_monitoring_ops false false nvAppends tbPath tbStores) = false := by
  cases appends <;> cases stores <;> cases nvAppends <;> cases tbPath <;> cases tbStores <;>
    decide

/-- Normalization strips every leading slash, so a path prefixed with one
more slash normalizes identically. -/
theorem pyLstripSlash_slash_append (p : String) :
    pyLstripSlash ("/" ++ p) = pyLstripSlash p := by
  have hlist : ("/" ++ p).toList = '/' :: p.toList := rfl
  simp only [pyLstripSlash, hlist, List.dropWhile_cons]
  norm_num

/-- Dropping a prefix by a predicate is idempotent. -/
theorem dropWhile_dropWhile (q : α → Bool) (l : List α) :
    (l.dropWhile q).dropWhile q = l.dropWhile q := by
  induction l with
  | nil => rfl
  | cons a rest ih =>
    by_cases h : q a
    · simp only [List.dropWhile_cons, if_pos h, ih]
    · simp only [List.dropWhile_cons, if_neg h]

/-- A mapped-in-place update is found under the updated key. -/
theorem find?_map_set (kvs : List (String × JVal)) (k : String) (v : JVal)
    (h : kvs.any (fun kv => kv.1 = k) = true) :
    (kvs.map fun kv => if kv.1 = k then (k, v) else kv).find? (fun kv => kv.1 = k) =
      some (k, v) := by
  induction kvs with
  | nil => simp at h
  | cons a rest ih =>
    by_cases ha : a.1 = k
    · simp [List.find?, ha]
    · have h' : rest.any (fun kv => kv.1 = k) = true := by
        simpa [ha] using h
      rw [List.map_cons, if_neg ha, List.find?_cons_of_neg _ (by simpa using ha)]
      exact ih h'

/-- An appended fresh binding is found when no earlier binding matches. -/
theorem find?_append_new (kvs : List (String × JVal)) (k : String) (v : JVal)
    (h : kvs.any (fun kv => kv.1 = k) = false) :
    (kvs ++ [(k, v)]).find? (fun kv => kv.1 = k) = some (k, v) := by
  induction kvs with
  | nil => simp [List.find?]
  | cons a rest ih =>
    simp only [List.any_cons, Bool.or_eq_false_iff] at h
    rw [List.cons_append, List.find?_cons_of_neg _ (by simpa using h.1)]
    exact ih h.2

/-- Storing under a key and reading the same key yields the stored value. -/
theorem dictGet_dictSet (kvs : List (String × JVal)) (k : String) (v : JVal) :
    dictGet (dictSet kvs k v) k = some v := by
  unfold dictGet dictSet
  by_cases h : kvs.any (fun kv => kv.1 = k)
  · rw [if_pos h, find?_map_set kvs k v h]
    rfl
  · rw [if_neg h, find?_append_new kvs k v (Bool.eq_false_iff.mpr h)]
    rfl

/-- C7: experiment-metrics keys are normalized by stripping leading path
separators on both store and lookup: a lookup through a leading-slash
variant or through the normalized form reads the same stored entry,
normalization is idempotent, and an entry stored by the scalar fetcher
under its normalized key is found again through the slashed variant of the
path. -/
theorem C7_key_normalization (s : AppState) (p : String) (d : JVal) :
    get_tensorboard_data s ("/" ++ p) = get_tensorboard_data s p ∧
    pyLstripSlash (pyLstripSlash p) = pyLstripSlash p ∧
    get_tensorboard_data s (pyLstripSlash p) = get_tensorboard_data s p ∧
    dictGet (dictSet s.tensorboard_data (pyLstripSlash p) d) (pyLstripSlash ("/" ++ p)) =
      some d := by
  have hidem : pyLstripSlash (pyLstripSlash p) = pyLstripSlash p := by
    simp only [pyLstripSlash]
    congr 1
    exact dropWhile_dropWhile _ p.toList
  refine ⟨?_, hidem, ?_, ?_⟩
  · simp only [get_tensorboard_data, pyLstripSlash_slash_append]
  · simp only [get_tensorboard_data, hidem]
  · rw [pyLstripSlash_slash_append, dictGet_dictSet]

/-- Sync-output attempts that all fail (spawn failure or non-zero exit)
never create the local output file. -/
theorem sync_output_failures_keep_none (cfg : Config) (envs : List (ExecOutcome × String)) :
    envs.all (fun e => syncFailedOutcome e.1) = true →
    envs.foldl (fun fs e => (sync_output cfg e.1 e.2 fs).1) ⟨none⟩ = ⟨none⟩ := by
  induction envs with
  | nil => intro _; rfl
  | cons e rest ih =>
    intro h
    simp only [List.all_cons, Bool.and_eq_true] at h
    have hstep : (sync_output cfg e.1 e.2 ⟨none⟩).1 = ⟨none⟩ := by
      obtain ⟨o, c⟩ := e
      cases o with
      | spawnFailure m => rfl
      | completed out err rc =>
        have hrc : rc ≠ 0 := by simpa [syncFailedOutcome] using h.1
        simp [sync_output, run_rsync, hrc]
    rw [List.foldl_cons, hstep]
    exact ih h.2

/-- C8: calling GET /api/output when no synced output file exists locally —
in particular after any sequence of sync-output attempts none of which
succeeded, starting from the fresh local state — returns an error-status
response whose message is exactly "Output file not found. Please sync
first.". -/
theorem C8_output_before_sync (cfg : Config) (envs : List (ExecOutcome × String))
    (h : envs.all (fun e => syncFailedOutcome e.1) = true) :
    get_output (envs.foldl (fun fs e => (sync_output cfg e.1 e.2 fs).1) ⟨none⟩) =
      ⟨"error", some "Output file not found. Please sync first.", none⟩ := by
  rw [sync_output_failures_keep_none cfg envs h]
  rfl

/-- Concrete run for C8: after one rsync exiting 1 and one rsync spawn
failure, the output endpoint reports the fixed message. -/
theorem C8_output_before_sync_witness :
    (sampleSyncFailures.all fun e => syncFailedOutcome e.1) = true ∧
    get_output
        (sampleSyncFailures.foldl (fun fs e => (sync_output sampleConfig e.1 e.2 fs).1) ⟨none⟩) =
      ⟨"error", some "Output file not found. Please sync first.", none⟩ :=
  ⟨by decide, C8_output_before_sync sampleConfig sampleSyncFailures (by decide)⟩

/-- C5: a scalar fetch whose remote helper exits 0 and whose (non-empty)
JSON stdout parses to an object carrying an `error` field leaves the whole
state — in particular the stored experiment-metrics entry for that path —
unchanged, and returns an envelope with `data` absent that carries that
error value. -/
theorem C5_reported_error_no_mutation (cfg : Config) (p stdout stderr : String) (s : AppState)
    (kvs : List (String × JVal)) (ev : JVal)
    (hne : stdout ≠ "")
    (hj : json_loads stdout = some (.obj kvs))
    (hget : pyDictGet kvs "error" = some ev) :
    fetch_tensorboard_data cfg p (.completed stdout stderr 0) s =
      (s, ⟨none, tbCommand cfg p, stdout, stderr, 0, some ev⟩) := by
  have hin : (kvs.any fun kv => kv.1 = "error") = true := by
    cases hf : kvs.reverse.find? (fun kv => kv.1 = "error") with
    | none =>
      rw [pyDictGet, hf] at hget
      exact Option.noConfusion hget
    | some kv =>
      have hp := List.find?_some hf
      have hm := List.mem_of_find?_eq_some hf
      rw [List.mem_reverse] at hm
      exact List.any_eq_true.mpr ⟨kv, hm, hp⟩
  unfold fetch_tensorboard_data
  simp only [run_ssh_command]
  rw [if_neg (by simp [hne]), hj]
  simp only [pyInError, hin, pySubscriptError, hget]

/-- Concrete run for C5: the helper emission `{"error": "x"}` is parsed,
recognised as a reported failure, stored nowhere, and surfaced in the
envelope. -/
theorem C5_reported_error_no_mutation_witness :
    json_loads sampleErrorStdout = some (.obj [("error", .str "x")]) ∧
    fetch_tensorboard_data sampleConfig "/exp/run1" (.completed sampleErrorStdout "" 0)
        initialState =
      (initialState,
        ⟨none, tbCommand sampleConfig "/exp/run1", sampleErrorStdout, "", 0, some (.str "x")⟩) :=
  ⟨rfl, C5_reported_error_no_mutation sampleConfig "/exp/run1" sampleErrorStdout "" initialState
    [("error", .str "x")] (.str "x") (by decide) rfl rfl⟩

/-- The GPU sampler touches only the GPU window: the flag, the thread list
and the metrics mapping are preserved. -/
theorem fetch_nvidia_smi_preserves (o : ExecOutcome) (now : String) (s : AppState) :
    (fetch_nvidia_smi o now s).1.monitoring_active = s.monitoring_active ∧
    (fetch_nvidia_smi o now s).1.monitoring_threads = s.monitoring_threads ∧
    (fetch_nvidia_smi o now s).1.tensorboard_data = s.tensorboard_data := by
  have hstate := fetch_nvidia_smi_state (o, now) s
  cases hsm : sampleOf (o, now) <;> rw [hsm] at hstate <;> rw [hstate] <;> exact ⟨rfl, rfl, rfl⟩

/-- The scalar fetcher touches only the metrics mapping: the flag and the
thread list are preserved. -/
theorem fetch_tensorboard_data_preserves (cfg : Config) (p : String) (o : ExecOutcome)
    (s : AppState) :
    (fetch_tensorboard_data cfg p o s).1.monitoring_active = s.monitoring_active ∧
    (fetch_tensorboard_data cfg p o s).1.monitoring_threads = s.monitoring_threads := by
  unfold fetch_tensorboard_data
  cases o with
  | spawnFailure m => exact ⟨rfl, rfl⟩
  | completed stdout stderr rc =>
    simp only [run_ssh_command]
    repeat' split
    all_goals exact ⟨rfl, rfl⟩

/-- A start-monitoring call that reports `started` leaves the active flag
set. -/
theorem start_monitoring_started_active (cfg : Config) (path : Option String)
    (env : StartEnv) (s : AppState)
    (h : (start_monitoring cfg path env s).2.status = .started) :
    (start_monitoring cfg path env s).1.monitoring_active = true := by
  obtain ⟨mo, ro, nvo, now, tbo⟩ := env
  unfold start_monitoring at h ⊢
  by_cases hact : s.monitoring_active
  · rw [if_pos hact] at h
    exact absurd h (by simp)
  · rw [if_neg hact] at h ⊢
    cases mo with
    | spawnFailure m => exact absurd h (by simp [run_ssh_command])
    | completed mout merr mrc =>
      cases ro with
      | spawnFailure m => exact absurd h (by simp [run_ssh_command, run_rsync])
      | completed rout rerr rrc =>
        simp only [run_ssh_command, run_rsync] at h ⊢
        by_cases hrc : rrc ≠ 0
        · rw [if_pos hrc] at h
          exact absurd h (by simp)
        · rw [if_neg hrc] at h ⊢
          cases htp : truthyPath path with
          | none =>
            simp only [htp]
            exact (fetch_nvidia_smi_preserves nvo now
              { s with monitoring_active := true, monitoring_threads := [] }).1
          | some p =>
            simp only [htp]
            have hp1 := (fetch_nvidia_smi_preserves nvo now
              { s with monitoring_active := true, monitoring_threads := [] }).1
            have hp2 := (fetch_tensorboard_data_preserves cfg p tbo
              ((fetch_nvidia_smi nvo now
                { s with monitoring_active := true, monitoring_threads := [] }).1)).1
            exact hp2.trans hp1

/-- A start-monitoring call made while the active flag is set returns
`already_running` immediately, starting nothing and changing nothing. -/
theorem start_monitoring_when_active (cfg : Config) (path : Option String) (env : StartEnv)
    (s : AppState) (hact : s.monitoring_active = true) :
    start_monitoring cfg path env s =
      (s, ⟨.already_running, none, "Monitoring already active", []⟩) := by
  unfold start_monitoring
  rw [if_pos hact]

/-- C4: if start-monitoring is called twice without an intervening stop and
the first call reports `started`, then afterwards exactly one logical
session is active (the flag is set), and the second call returns
`already_running`, starts no collector loop threads, and leaves the shared
state exactly as the first call left it. -/
theorem C4_double_start (cfg : Config) (path1 path2 : Option String) (env1 env2 : StartEnv)
    (s : AppState) (h : (start_monitoring cfg path1 env1 s).2.status = .started) :
    (start_monitoring cfg path1 env1 s).1.monitoring_active = true ∧
    start_monitoring cfg path2 env2 (start_monitoring cfg path1 env1 s).1 =
      ((start_monitoring cfg path1 env1 s).1,
        ⟨.already_running, none, "Monitoring already active", []⟩) := by
  have hact := start_monitoring_started_active cfg path1 env1 s h
  exact ⟨hact, start_monitoring_when_active cfg path2 env2 _ hact⟩

/-- Concrete run for C4: a first start in a fully-successful environment
reports `started`; the second start is rejected as `already_running` with
no thread starts and no state change. -/
theorem C4_double_start_witness :
    (start_monitoring sampleConfig none sampleStartEnv initialState).2.status = .started ∧
    ((start_monitoring sampleConfig none sampleStartEnv initialState).1.monitoring_active =
        true ∧
      start_monitoring sampleConfig none sampleStartEnv
          (start_monitoring sampleConfig none sampleStartEnv initialState).1 =
        ((start_monitoring sampleConfig none sampleStartEnv initialState).1,
          ⟨.already_running, none, "Monitoring already active", []⟩)) :=
  ⟨rfl, C4_double_start sampleConfig none none sampleStartEnv sampleStartEnv initialState rfl⟩

/-- When the session is not active and both remote commands complete with
the script-push rsync exiting 0, start-monitoring reaches the running state
and reports `started`, whatever the mkdir exit status was. -/
theorem start_monitoring_rsync_ok (cfg : Config) (path : Option String) (s : AppState)
    (hact : s.monitoring_active = false)
    (mout merr : String) (mrc : Int) (rout rerr : String)
    (nvo : ExecOutcome) (now : String) (tbo : ExecOutcome) :
    (start_monitoring cfg path
        ⟨.completed mout merr mrc, .completed rout rerr 0, nvo, now, tbo⟩ s).2.status =
      .started ∧
    (start_monitoring cfg path
        ⟨.completed mout merr mrc, .completed rout rerr 0, nvo, now, tbo⟩ s).1.monitoring_active =
      true := by
  unfold start_monitoring
  rw [if_neg (by simp [hact])]
  simp only [run_ssh_command, run_rsync]
  rw [if_neg (fun hne => hne rfl)]
  cases htp : truthyPath path with
  | none =>
    simp only [htp]
    exact ⟨trivial, (fetch_nvidia_smi_preserves nvo now
      { s with monitoring_active := true, monitoring_threads := [] }).1⟩
  | some p =>
    simp only [htp]
    have hp1 := (fetch_nvidia_smi_preserves nvo now
      { s with monitoring_active := true, monitoring_threads := [] }).1
    have hp2 := (fetch_tensorboard_data_preserves cfg p tbo
      ((fetch_nvidia_smi nvo now
        { s with monitoring_active := true, monitoring_threads := [] }).1)).1
    exact ⟨trivial, hp2.trans hp1⟩

/-- C10: during start-monitoring the preliminary remote mkdir's exit status
is ignored: with the session not active and both remote commands
completing, the call transitions to running and reports `started` exactly
when the script-push rsync exits 0 — whatever the mkdir exit status was —
while a non-zero rsync exit aborts with an error status, the message
`Failed to sync tensorboard script`, and no state change. -/
theorem C10_mkdir_status_ignored (cfg : Config) (path : Option String) (s : AppState)
    (mout merr : String) (mrc : Int) (rout rerr : String) (rrc : Int)
    (nvo : ExecOutcome) (now : String) (tbo : ExecOutcome)
    (hact : s.monitoring_active = false) :
    (rrc = 0 →
      (start_monitoring cfg path
          ⟨.completed mout merr mrc, .completed rout rerr rrc, nvo, now, tbo⟩ s).2.status =
        .started ∧
      (start_monitoring cfg path
          ⟨.completed mout merr mrc, .completed rout rerr rrc, nvo, now, tbo⟩
          s).1.monitoring_active = true) ∧
    (rrc ≠ 0 →
      (start_monitoring cfg path
          ⟨.completed mout merr mrc, .completed rout rerr rrc, nvo, now, tbo⟩ s).2.status =
        .error ∧
      (start_monitoring cfg path
          ⟨.completed mout merr mrc, .completed rout rerr rrc, nvo, now, tbo⟩ s).2.message =
        some "Failed to sync tensorboard script" ∧
      (start_monitoring cfg path
          ⟨.completed mout merr mrc, .completed rout rerr rrc, nvo, now, tbo⟩ s).1 = s) := by
  constructor
  · intro h0
    subst h0
    exact start_monitoring_rsync_ok cfg path s hact mout merr mrc rout rerr nvo now tbo
  · intro hne
    unfold start_monitoring
    rw [if_neg (by simp [hact])]
    simp only [run_ssh_command, run_rsync]
    rw [if_pos hne]
    exact ⟨rfl, rfl, rfl⟩

/-- Concrete run for C10: the remote mkdir exits 1 while the script-push
rsync exits 0, and the call still reports `started`. -/
theorem C10_mkdir_status_ignored_witness :
    initialState.monitoring_active = false ∧
    (start_monitoring sampleConfig none sampleStartEnvMkdirFails initialState).2.status =
      .started :=
  ⟨rfl,
    ((C10_mkdir_status_ignored sampleConfig none initialState "" "mkdir: permission denied" 1
        "" "" 0 (.completed "" "" 0) "2026-01-01T00:00:00" (.completed "" "" 0) rfl).1 rfl).1⟩
